import Mathlib

/-!
Verification development for a real-time chat backend (FastAPI + SQLAlchemy +
Redis + an OpenAI-driven tool-calling agent).  The Python sources are shallowly
embedded: pure logic becomes Lean functions, stateful code becomes explicit
state passing (`Nat → List α` for the durable store, `String → Option (List α)`
for the Redis key space), fallible code returns `Except`, and Python's
keyword-argument binding (which raises `TypeError` for an unexpected keyword)
is modelled by an explicit check of the passed keyword names against the
callee's parameter list.
-/

/-! ## Configuration constants (src/api/core/configs.py) -/

/-- configs.py line 49: `redis_max_messages: int = 50`. -/
def redisMaxMessages : Nat := 50

/-- configs.py line 52: `chat_history_limit: int = 15`. -/
def chatHistoryLimit : Nat := 15

/-- configs.py line 55: `websocket_idle_timeout: int = 300`.  Defined in the
settings class; no handler module references it. -/
def websocketIdleTimeout : Nat := 300

/-- configs.py line 56: `demo_ws_lifetime: int = 120`. -/
def demoWsLifetime : Nat := 120

/-! ## Shared Python-semantics helpers -/

/-- Python keyword-call binding: calling a function with a keyword that is not
among its parameter names raises `TypeError`.  `accepted` is the callee's
keyword-bindable parameter list, `passed` the keywords at the call site. -/
def pyKwCall (accepted passed : List String) : Except String Unit :=
  match passed.find? (fun k => !(accepted.contains k)) with
  | some k => .error ("TypeError: unexpected keyword argument " ++ k)
  | none => .ok ()

/-- Python `str(x)` for an optional string (`None` prints as "None"). -/
def pyShowOptStr : Option String → String
  | none => "None"
  | some s => s

/-- Leading-whitespace removal on a character list. -/
def dropLeadingWs : List Char → List Char
  | [] => []
  | c :: cs => if c.isWhitespace then dropLeadingWs cs else c :: cs

/-- Python's `str.strip()` (whitespace on both ends). -/
def pyStrip (s : String) : String :=
  String.mk (List.reverse (dropLeadingWs (List.reverse (dropLeadingWs s.toList))))

/-- Python's `str.lower()` as a character-wise map. -/
def pyLower (s : String) : String :=
  String.mk (s.toList.map Char.toLower)

/-- Matching of a character pattern at the head of a character list. -/
def charSeqMatchesAt : List Char → List Char → Bool
  | _, [] => true
  | [], _ :: _ => false
  | c :: cs, p :: ps => (c == p) && charSeqMatchesAt cs ps

/-- Containment of a character pattern anywhere in a character list. -/
def charSeqContains (s pat : List Char) : Bool :=
  charSeqMatchesAt s pat ||
    (match s with
     | [] => false
     | _ :: cs => charSeqContains cs pat)

/-- Python's `pat in s` substring test. -/
def containsSubstring (s pat : String) : Bool :=
  charSeqContains s.toList pat.toList

/-! ## Message roles (src/models/message.py lines 10-13) -/

inductive MessageRole where
  | user
  | assistant
  | system
  deriving DecidableEq, Repr

/-! ## Agent DTOs (src/agent/dto/messages.py)

`ToolCall.function` is a `dict[str, Any]` documented as
`{"name": str, "arguments": str}`; since dict keys may be absent, both fields
are modelled as `Option String`.  The result payload a tool produces is kept
as a type parameter `β`; the decoded argument payload as a type parameter `γ`.
-/

/-- ToolCall DTO: id, type, and the function dict's "name"/"arguments" entries. -/
structure ToolCallM where
  id : String
  type : String
  functionName : Option String
  functionArguments : Option String
  deriving DecidableEq, Repr

/-- Result payload of one tool invocation: the success payload or one of the
three error dicts built in registry.py (lines 66-69, 81, 102-105). -/
inductive ToolResultPayload (β : Type) where
  | ok (payload : β)
  | errorNotFound (message : String) (availableTools : List String)
  | errorInvalidArguments (message : String)
  | errorExecutionFailed (message : String) (tool : String)
  deriving DecidableEq, Repr

/-- ToolResult DTO (pydantic): `tool_call_id: str`, `name: str`, `result`. -/
structure ToolResultM (β : Type) where
  toolCallId : String
  name : String
  result : ToolResultPayload β
  deriving DecidableEq, Repr

/-- Pydantic construction of `ToolResult`: the `name` field is typed `str`, so
passing `None` raises a `ValidationError`. -/
def mkToolResult (toolCallId : String) (name : Option String)
    (result : ToolResultPayload β) : Except String (ToolResultM β) :=
  match name with
  | none => .error "ValidationError: name must be a string"
  | some n => .ok (ToolResultM.mk toolCallId n result)

/-- Dict with "tool_calls" and "tool_results" keys, as assembled in
orchestrator.py lines 163-167 and chat_session_service.py lines 66-69. -/
structure ToolCallDataM (β : Type) where
  toolCalls : List ToolCallM
  toolResults : List (ToolResultM β)
  deriving DecidableEq, Repr

/-- AgentMessage DTO: role, optional content, optional tool-call data. -/
structure AgentMessageM (β : Type) where
  role : String
  content : Option String
  toolCallData : Option (ToolCallDataM β)
  deriving DecidableEq, Repr

/-- AgentRequest DTO: history, pending user message, chat id. -/
structure AgentRequestM (β : Type) where
  chatHistory : List (AgentMessageM β)
  userMessage : AgentMessageM β
  chatId : Nat
  deriving DecidableEq, Repr

/-- AgentResponse DTO: final content plus optional tool metadata
(ToolCallMetadata has the same two lists as ToolCallDataM). -/
structure AgentResponseM (β : Type) where
  content : String
  toolMetadata : Option (ToolCallDataM β)
  deriving DecidableEq, Repr

/-! ## Tool registry (src/agent/tools/registry.py)

A tool (src/agent/tools/base.py) has a name, a description, a JSON parameter
schema (kept as an opaque string) and an execute function; an exception raised
by `execute` is modelled as the `.error` case of `Except`.  The registry's
`_tools` dict is modelled as a list of tools keyed by their names.  The
database session and the execution context threaded through `execute` carry no
logic of their own and are not modelled.
-/

structure ToolM (γ β : Type) where
  name : String
  description : String
  parametersSchema : String
  execute : γ → Except String β

/-- `self._tools.get(name)` (registry.py line 30). -/
def getTool (reg : List (ToolM γ β)) (name : String) : Option (ToolM γ β) :=
  reg.find? (fun t => t.name == name)

/-- `list(self._tools.keys())` (registry.py line 68). -/
def toolNames (reg : List (ToolM γ β)) : List String :=
  reg.map (fun t => t.name)

/-- OpenAI function schema built by `BaseTool.to_openai_schema` (base.py 61-75). -/
structure OpenAiFunctionSchema where
  type : String
  name : String
  description : String
  parameters : String
  deriving DecidableEq, Repr

def toOpenAiSchema (t : ToolM γ β) : OpenAiFunctionSchema :=
  OpenAiFunctionSchema.mk "function" t.name t.description t.parametersSchema

/-- `get_openai_schemas` (registry.py lines 36-43). -/
def getOpenAiSchemas (reg : List (ToolM γ β)) : List OpenAiFunctionSchema :=
  reg.map toOpenAiSchema

/-- `execute_tool_call` (registry.py lines 45-111).  `jsonLoads` models
`json.loads` on the argument string; a decode failure is its `.error` case.
The default argument string is Python's `"{}"` (written with escapes). -/
def executeToolCall (jsonLoads : String → Except String γ)
    (reg : List (ToolM γ β)) (tc : ToolCallM) : Except String (ToolResultM β) :=
  let functionName := tc.functionName
  let argumentsStr := tc.functionArguments.getD "\x7b\x7d"
  let tool? := match functionName with
    | none => none
    | some n => getTool reg n
  match tool? with
  | none =>
      mkToolResult tc.id functionName
        (.errorNotFound ("Tool '" ++ pyShowOptStr functionName ++ "' not found")
          (toolNames reg))
  | some tool =>
      match jsonLoads argumentsStr with
      | .error e =>
          mkToolResult tc.id functionName
            (.errorInvalidArguments ("Invalid JSON arguments: " ++ e))
      | .ok args =>
          match tool.execute args with
          | .ok r => mkToolResult tc.id functionName (.ok r)
          | .error e =>
              mkToolResult tc.id functionName
                (.errorExecutionFailed ("Tool execution failed: " ++ e) tool.name)

/-- `execute_tool_calls` (registry.py lines 113-135): the sequential loop over
the requests; an exception escaping one call aborts the whole loop. -/
def executeToolCallsSeq (jsonLoads : String → Except String γ)
    (reg : List (ToolM γ β)) : List ToolCallM → Except String (List (ToolResultM β))
  | [] => .ok []
  | tc :: rest =>
    match executeToolCall jsonLoads reg tc with
    | .error e => .error e
    | .ok r =>
      match executeToolCallsSeq jsonLoads reg rest with
      | .error e => .error e
      | .ok rs => .ok (r :: rs)

/-! ## LLM client (src/agent/llm/openai_client.py)

`chat_completion` calls the OpenAI API and translates provider exceptions into
the agent's exception hierarchy.  The first choice's message of a completion
is modelled directly; the provider itself is an oracle parameter.
-/

/-- One tool call inside an OpenAI completion message; the OpenAI API types
guarantee `function.name` and `function.arguments` to be strings. -/
structure CompletionToolCall where
  id : String
  type : String
  functionName : String
  functionArguments : String
  deriving DecidableEq, Repr

/-- `response.choices[0].message`: optional text content, tool calls (an
absent/None `tool_calls` is the empty list). -/
structure CompletionMessage where
  content : Option String
  toolCalls : List CompletionToolCall
  deriving DecidableEq, Repr

/-- Agent exception hierarchy (src/agent/exceptions.py): the three specific
errors are subclasses of LLMError; the string is the exception's message. -/
inductive LLMErr where
  | auth (msg : String)
  | rateLimit (msg : String)
  | contextLength (msg : String)
  | llm (msg : String)
  deriving DecidableEq, Repr

/-- Outcome of one call to the OpenAI SDK: a completion, or one of the
exception classes caught in openai_client.py lines 131-157, with the provider
error's own string detail. -/
inductive ProviderOutcome where
  | success (message : CompletionMessage)
  | authenticationError (detail : String)
  | rateLimitError (detail : String)
  | apiError (detail : String)
  | unexpectedException (detail : String)
  deriving DecidableEq, Repr

/-- Context-length detection (openai_client.py line 146): substring check on
the lowercased provider error text. -/
def isContextLengthDetail (detail : String) : Bool :=
  containsSubstring (pyLower detail) "context_length_exceeded" ||
    containsSubstring (pyLower detail) "maximum context length"

/-- Exception translation of `chat_completion` (openai_client.py lines
131-157): each caught provider exception is re-raised as an agent exception
with the fixed message written at the raise site (generic API and unexpected
errors embed the provider detail). -/
def chatCompletionResult : ProviderOutcome → Except LLMErr CompletionMessage
  | .success m => .ok m
  | .authenticationError _ =>
      .error (.auth "OpenAI API key is invalid. Please check AGENT_OPENAI_API_KEY in .env")
  | .rateLimitError _ =>
      .error (.rateLimit "OpenAI rate limit exceeded. Please try again later.")
  | .apiError detail =>
      if isContextLengthDetail detail then
        .error (.contextLength "Message history too long. Please start a new chat.")
      else
        .error (.llm ("OpenAI API error: " ++ detail))
  | .unexpectedException detail =>
      .error (.llm ("Unexpected LLM error: " ++ detail))

/-- An LLM provider oracle: what the OpenAI SDK does for a given message list,
system message and optional tool schemas. -/
def LlmProvider (β : Type) : Type :=
  List (AgentMessageM β) → String → Option (List OpenAiFunctionSchema) → ProviderOutcome

/-- One `chat_completion` call through the provider oracle. -/
def chatCompletionCall (provider : LlmProvider β) (messages : List (AgentMessageM β))
    (systemMsg : String) (tools : Option (List OpenAiFunctionSchema)) :
    Except LLMErr CompletionMessage :=
  chatCompletionResult (provider messages systemMsg tools)

/-! ## Agent orchestrator (src/agent/orchestrator.py) -/

/-- The fixed system instruction (orchestrator.py lines 69 and 173). -/
def systemMessageText : String := "You are a helpful assistant."

/-- Error reaching `process`'s try/except: an agent LLM exception, or any
other Python exception caught by the final `except Exception` clause. -/
inductive OrchestratorErr where
  | llmErr (e : LLMErr)
  | pyExc (detail : String)
  deriving DecidableEq, Repr

def authenticationErrorText : String :=
  "Configuration error: Invalid OpenAI API key. Please contact support."

def rateLimitErrorText : String :=
  "Too many requests. Please wait a moment and try again."

def llmErrorLead : String := "Sorry, I encountered an error: "

def unexpectedErrorText : String := "An unexpected error occurred. Please try again."

/-- The except-clauses of `process` (orchestrator.py lines 98-120), in source
order: LLMAuthenticationError, LLMRateLimitError, LLMError (which also catches
its subclass LLMContextLengthError and embeds `str(e)`), then Exception. -/
def handleProcessError : OrchestratorErr → String
  | .llmErr (.auth _) => authenticationErrorText
  | .llmErr (.rateLimit _) => rateLimitErrorText
  | .llmErr (.contextLength msg) => llmErrorLead ++ msg
  | .llmErr (.llm msg) => llmErrorLead ++ msg
  | .pyExc _ => unexpectedErrorText

/-- Conversion of OpenAI tool calls to ToolCall DTOs (orchestrator.py lines
140-147): the function dict is rebuilt with both keys present. -/
def convertToolCall (tc : CompletionToolCall) : ToolCallM :=
  ToolCallM.mk tc.id tc.type (some tc.functionName) (some tc.functionArguments)

/-- Tools argument of the first dispatch (orchestrator.py lines 62-64): `None`
when no tools are registered, otherwise all schemas. -/
def toolsArgument (reg : List (ToolM γ β)) : Option (List OpenAiFunctionSchema) :=
  if reg.isEmpty then none else some (getOpenAiSchemas reg)

/-- `_execute_tool_calls` (orchestrator.py lines 122-182): convert the tool
calls, execute them, append ONE assistant message carrying both lists, make
the second LLM call without tools, return final content plus both lists.  An
exception from the registry or the second call propagates to `process`. -/
def executeToolCallsPhase (provider : LlmProvider β) (jsonLoads : String → Except String γ)
    (reg : List (ToolM γ β)) (messages : List (AgentMessageM β))
    (assistantMessage : CompletionMessage) :
    Except OrchestratorErr (String × List ToolCallM × List (ToolResultM β)) :=
  let toolCalls := assistantMessage.toolCalls.map convertToolCall
  match executeToolCallsSeq jsonLoads reg toolCalls with
  | .error e => .error (.pyExc e)
  | .ok toolResults =>
    let messagesWithTools := messages ++
      [AgentMessageM.mk "assistant" assistantMessage.content
        (some (ToolCallDataM.mk toolCalls toolResults))]
    match chatCompletionCall provider messagesWithTools systemMessageText none with
    | .error e => .error (.llmErr e)
    | .ok finalResponse => .ok (finalResponse.content.getD "", toolCalls, toolResults)

/-- Body of `process`'s try block (orchestrator.py lines 57-96). -/
def processBody (provider : LlmProvider β) (jsonLoads : String → Except String γ)
    (reg : List (ToolM γ β)) (req : AgentRequestM β) :
    Except OrchestratorErr (AgentResponseM β) :=
  let allMessages := req.chatHistory ++ [req.userMessage]
  match chatCompletionCall provider allMessages systemMessageText (toolsArgument reg) with
  | .error e => .error (.llmErr e)
  | .ok assistantMessage =>
    if assistantMessage.toolCalls.isEmpty then
      .ok (AgentResponseM.mk (assistantMessage.content.getD "") none)
    else
      match executeToolCallsPhase provider jsonLoads reg allMessages assistantMessage with
      | .error e => .error e
      | .ok (finalContent, toolCalls, toolResults) =>
        .ok (AgentResponseM.mk finalContent (some (ToolCallDataM.mk toolCalls toolResults)))

/-- `AgentOrchestrator.process` (orchestrator.py lines 47-120): the try body
plus the exception mapping; it never propagates an exception. -/
def agentProcess (provider : LlmProvider β) (jsonLoads : String → Except String γ)
    (reg : List (ToolM γ β)) (req : AgentRequestM β) : AgentResponseM β :=
  match processBody provider jsonLoads reg req with
  | .ok r => r
  | .error e => AgentResponseM.mk (handleProcessError e) none

/-! ## Message model and repository (src/models/message.py,
src/repositories/message_repository.py)

The SQLAlchemy `Message` model maps exactly the attributes listed below; its
default declarative constructor raises `TypeError` for any keyword that is not
an attribute of the model.  `content` is declared `nullable=False`
(message.py line 35) and the model declares no `tool_call_data` attribute.
-/

/-- Attributes declared on the `Message` model (message.py lines 16-47):
five mapped columns plus the `chat` relationship. -/
def messageModelAttributes : List String :=
  ["id", "chat_id", "role", "content", "created_at", "chat"]

/-- Nullability of the `content` column (message.py line 35: `nullable=False`). -/
def messageContentNullable : Bool := false

/-- SQLAlchemy's default declarative constructor: it raises `TypeError` for a
keyword argument that is not an attribute of the model class. -/
def declarativeInit (attrs kwargs : List String) : Except String Unit :=
  match kwargs.find? (fun k => !(attrs.contains k)) with
  | some k => .error ("TypeError: " ++ k ++ " is an invalid keyword argument for Message")
  | none => .ok ()

/-- A message row as the repository would build it. -/
structure MessageRow where
  chatId : Nat
  role : MessageRole
  content : Option String
  deriving DecidableEq, Repr

/-- `MessageRepository.create` (message_repository.py lines 14-31): it always
constructs `Message(chat_id=..., role=..., content=..., tool_call_data=...)`,
passing the `tool_call_data` keyword unconditionally (line 26), then adds,
flushes and refreshes.  The constructor's keyword check happens first. -/
def messageRepositoryCreate (chatId : Nat) (role : MessageRole)
    (content : Option String) (toolCallData : Option (ToolCallDataM β)) :
    Except String MessageRow :=
  match declarativeInit messageModelAttributes
      ["chat_id", "role", "content", "tool_call_data"] with
  | .error e => .error e
  | .ok _ =>
      let _ := toolCallData
      .ok (MessageRow.mk chatId role content)

/-! ## Chat cache service (src/api/services/chat_cache_service.py)

The Redis key space is a partial map from key strings to lists; a list key
with no elements does not exist.  TTL refreshes (`expire`) carry no list
content and are not modelled.  JSON (de)serialisation of a cached message is
modelled as the identity on the element type `α`.
-/

/-- State of the Redis key space: each key holds a list or is absent. -/
def RedisState (α : Type) : Type := String → Option (List α)

/-- `_get_messages_key` (chat_cache_service.py lines 22-24). -/
def getMessagesKey (chatId : Nat) : String :=
  "chat:" ++ toString chatId ++ ":messages"

/-- Redis `LRANGE key 0 -1`: the whole list, empty if the key is absent. -/
def redisLrangeAll (s : RedisState α) (k : String) : List α :=
  (s k).getD []

/-- Redis `DEL key`. -/
def redisDelete (s : RedisState α) (k : String) : RedisState α :=
  fun k2 => if k2 = k then none else s k2

/-- Redis `RPUSH key vals...`: appends to the list, creating the key. -/
def redisRpush (s : RedisState α) (k : String) (vals : List α) : RedisState α :=
  fun k2 => if k2 = k then some (redisLrangeAll s k ++ vals) else s k2

/-- The last `n` elements of a list under a negative start index: models both
Python's `xs[-n:]` slice (chat_cache_service.py line 64) and Redis
`LTRIM key -n -1` (line 90).  For `n = 0` both degenerate to index 0 and keep
the whole list. -/
def lastElems (n : Nat) (xs : List α) : List α :=
  if n = 0 then xs else xs.drop (xs.length - n)

/-- Redis `LTRIM key -n -1` on the key's list; a no-op on an absent key. -/
def redisLtrimLast (s : RedisState α) (k : String) (n : Nat) : RedisState α :=
  fun k2 => if k2 = k then (s k).map (lastElems n) else s k2

/-- `ChatCacheService.get_messages` (chat_cache_service.py lines 35-51):
LRANGE the whole list; an empty result is a cache miss returning `None`. -/
def cacheGetMessages (s : RedisState α) (chatId : Nat) : Option (List α) :=
  let key := getMessagesKey chatId
  let messagesJson := redisLrangeAll s key
  if messagesJson.isEmpty then none else some messagesJson

/-- `ChatCacheService.set_messages` (chat_cache_service.py lines 53-76):
delete the key, keep only the last `maxMessages` given messages, RPUSH them
when the remainder is non-empty (plus an expiry refresh, not modelled). -/
def cacheSetMessages (maxMessages : Nat) (s : RedisState α) (chatId : Nat)
    (messages : List α) : RedisState α :=
  let key := getMessagesKey chatId
  let s1 := redisDelete s key
  let messagesToCache := lastElems maxMessages messages
  if messagesToCache.isEmpty then s1 else redisRpush s1 key messagesToCache

/-- `ChatCacheService.add_message` (chat_cache_service.py lines 78-94):
RPUSH one message, LTRIM to the last `maxMessages`, refresh expiry. -/
def cacheAddMessage (maxMessages : Nat) (s : RedisState α) (chatId : Nat)
    (m : α) : RedisState α :=
  let key := getMessagesKey chatId
  let s1 := redisRpush s key [m]
  redisLtrimLast s1 key maxMessages

/-- `ChatCacheService.clear_chat` (chat_cache_service.py lines 96-100). -/
def cacheClearChat (s : RedisState α) (chatId : Nat) : RedisState α :=
  redisDelete s (getMessagesKey chatId)

/-! ## Message service (src/api/services/message_service.py)

Redis connection failures are modelled by a fault flag per operation
direction; a set flag makes the cache operation raise.  The repository
persistence inside `create_message` is modelled as appending to the per-chat
store (the `Message` constructor's keyword defect is modelled separately by
`messageRepositoryCreate` and examined there; here the cache policy of the
service is isolated).  Schema conversion of returned rows is the identity.
-/

/-- Which Redis operations fail, by direction. -/
structure RedisFaults where
  readFails : Bool
  writeFails : Bool
  deriving DecidableEq, Repr

def noFaults : RedisFaults := RedisFaults.mk false false

/-- `get_messages` through a possibly failing Redis connection. -/
def cacheGetMessagesE (f : RedisFaults) (s : RedisState α) (chatId : Nat) :
    Except String (Option (List α)) :=
  if f.readFails then .error "redis connection failure on read"
  else .ok (cacheGetMessages s chatId)

/-- `set_messages` through a possibly failing Redis connection. -/
def cacheSetMessagesE (f : RedisFaults) (maxMessages : Nat) (s : RedisState α)
    (chatId : Nat) (messages : List α) : Except String (RedisState α) :=
  if f.writeFails then .error "redis connection failure on write"
  else .ok (cacheSetMessages maxMessages s chatId messages)

/-- `add_message` through a possibly failing Redis connection. -/
def cacheAddMessageE (f : RedisFaults) (maxMessages : Nat) (s : RedisState α)
    (chatId : Nat) (m : α) : Except String (RedisState α) :=
  if f.writeFails then .error "redis connection failure on write"
  else .ok (cacheAddMessage maxMessages s chatId m)

/-- `MessageRepository.get_recent_messages` (message_repository.py lines
56-74): ORDER BY created_at DESC LIMIT n, then reversed to chronological
order; SQL `LIMIT 0` returns no rows. -/
def sqlRecentMessages (store : Nat → List α) (chatId : Nat) (limit : Nat) : List α :=
  (store chatId).drop ((store chatId).length - limit)

/-- The cache-add step of `create_message` (message_service.py lines 50-55):
`add_message` wrapped in try/except, logging and swallowing any failure. -/
def msCreateMessageCacheStep (f : RedisFaults) (maxMessages : Nat)
    (cache : RedisState α) (chatId : Nat) (m : α) : RedisState α :=
  match cacheAddMessageE f maxMessages cache chatId m with
  | .ok c2 => c2
  | .error _ => cache

/-- `MessageService.create_message` (message_service.py lines 27-56): verify
the chat exists, persist via `MessageRepository.create` — whose
`Message(..., tool_call_data=...)` constructor call raises on every
invocation (`messageRepositoryCreate`) — commit, then try to add the message
to the cache, logging and swallowing any cache failure.  The cache step is
unreachable in the current code, since the persistence step always raises. -/
def msCreateMessage (f : RedisFaults) (maxMessages : Nat) (chats : Nat → Bool)
    (store : Nat → List MessageRow) (cache : RedisState MessageRow) (chatId : Nat)
    (role : MessageRole) (content : String) :
    Except String ((Nat → List MessageRow) × RedisState MessageRow × MessageRow) :=
  if chats chatId then
    match messageRepositoryCreate chatId role (some content)
        (none : Option (ToolCallDataM Unit)) with
    | .error e => .error e
    | .ok row =>
        let store2 := fun c => if c = chatId then store c ++ [row] else store c
        let cache2 := msCreateMessageCacheStep f maxMessages cache chatId row
        .ok (store2, cache2, row)
  else .error "NotFoundException: chat not found"

/-- `MessageService.get_chat_history` (message_service.py lines 58-90): try
the cache first (this read is NOT wrapped in try/except), fall back to the
store's most recent `maxMessages` messages on a miss, repopulate the cache
when the fallback is non-empty (swallowing a write failure), and return the
messages together with the resulting cache state. -/
def msGetChatHistory (f : RedisFaults) (maxMessages : Nat) (store : Nat → List α)
    (cache : RedisState α) (chatId : Nat) (useCache : Bool) :
    Except String (List α × RedisState α) :=
  let fallback :=
    let messages := sqlRecentMessages store chatId maxMessages
    let cache2 := if messages.isEmpty then cache
      else match cacheSetMessagesE f maxMessages cache chatId messages with
        | .ok c2 => c2
        | .error _ => cache
    Except.ok (messages, cache2)
  if useCache then
    match cacheGetMessagesE f cache chatId with
    | .error e => .error e
    | .ok (some cachedMessages) => .ok (cachedMessages, cache)
    | .ok none => fallback
  else fallback

/-! ## Chat session pipeline (src/api/services/chat_session_service.py)

`ChatSessionService.process_user_message` composes the message service and the
orchestrator.  Its call sites pass keyword arguments, so each call is guarded
by the Python keyword-binding check against the callee's actual parameter
list.  The orchestrator's reply is an oracle parameter (its own behaviour is
verified separately); `historyCacheKeys` is the key set of the service's
in-process `chat_history_cache` dict.
-/

/-- Keyword-bindable parameters of `MessageService.create_message`
(message_service.py lines 27-32): `chat_id`, `role`, `content` only. -/
def msCreateMessageParams : List String := ["chat_id", "role", "content"]

/-- Keyword-bindable parameters of `MessageService.get_chat_history`
(message_service.py lines 58-62): `chat_id`, `use_cache` only. -/
def msGetChatHistoryParams : List String := ["chat_id", "use_cache"]

/-- The call-level behaviour of `MessageService.create_message` once entered:
chat check, then `MessageRepository.create` (whose `Message(...)` constructor
call performs the declarative keyword check), then store append.  The cache
step is unreachable when the constructor raises. -/
def pipelineServiceCreateMessage (chats : Nat → Bool) (store : Nat → List MessageRow)
    (chatId : Nat) (role : MessageRole) (content : String) :
    Except String ((Nat → List MessageRow) × MessageRow) :=
  if chats chatId then
    match messageRepositoryCreate chatId role (some content)
        (none : Option (ToolCallDataM Unit)) with
    | .error e => .error e
    | .ok row =>
        .ok (fun c => if c = chatId then store c ++ [row] else store c, row)
  else .error "NotFoundException: chat not found"

/-- `ChatSessionService.process_user_message` (chat_session_service.py lines
33-84).  Step 1 calls `create_message(chat_id=..., role=..., content=...)`;
step 2 (`_get_or_load_history`, lines 95-102) calls
`get_chat_history(chat_id, limit=...)` when the chat id is not in the
in-process history cache; step 3 is the orchestrator (its content given by
`agentContent`); step 4 calls `create_message(chat_id=..., role=...,
content=..., tool_call_data=...)`.  Each call first performs Python keyword
binding against the callee's parameter list. -/
def processUserMessage (chats : Nat → Bool) (store : Nat → List MessageRow)
    (historyCacheKeys : List Nat) (agentContent : String) (chatId : Nat)
    (content : String) :
    Except String ((Nat → List MessageRow) × MessageRow × MessageRow) :=
  match pyKwCall msCreateMessageParams ["chat_id", "role", "content"] with
  | .error e => .error e
  | .ok _ =>
  match pipelineServiceCreateMessage chats store chatId MessageRole.user content with
  | .error e => .error e
  | .ok (store1, userMessage) =>
  match (if historyCacheKeys.contains chatId then Except.ok ()
         else pyKwCall msGetChatHistoryParams ["chat_id", "limit"]) with
  | .error e => .error e
  | .ok _ =>
  match pyKwCall msCreateMessageParams ["chat_id", "role", "content", "tool_call_data"] with
  | .error e => .error e
  | .ok _ =>
  match pipelineServiceCreateMessage chats store1 chatId MessageRole.assistant agentContent with
  | .error e => .error e
  | .ok (store2, assistantMessage) => .ok (store2, userMessage, assistantMessage)

/-! ## WebSocket message loop (src/api/v1/websocket/base_handler.py)

One iteration of `message_loop` (lines 95-110) on one inbound frame.  The
frame is either non-parseable JSON, a parseable JSON value that is not an
object (`data.get` then raises, caught at the loop boundary), or an object
whose "type"/"content" entries are modelled as optional strings.  The
conversation pipeline is an oracle returning the two persisted messages or
raising.  Transport sends are assumed to succeed.
-/

inductive InboundData where
  | notJson
  | nonDict
  | dict (type : Option String) (content : Option String)
  deriving DecidableEq, Repr

inductive OutboundFrame (μ : Type) where
  | message (m : μ)
  | error (text : String)
  | pong
  deriving DecidableEq, Repr

/-- `handle_user_message` (base_handler.py lines 126-148): strip the content,
reject empty content with a validation error frame, otherwise run the
pipeline and either send both resulting messages or an error frame. -/
def handleUserMessage (pipeline : String → Except String (μ × μ))
    (content : Option String) : List (OutboundFrame μ) :=
  let c := pyStrip (content.getD "")
  if c = "" then [.error "Message content cannot be empty"]
  else
    match pipeline c with
    | .ok (userMessage, assistantMessage) =>
        [.message userMessage, .message assistantMessage]
    | .error _ =>
        [.error "Sorry, I couldn't process your message. Please try again."]

/-- `handle_message` (base_handler.py lines 112-124): dispatch on "type". -/
def handleMessage (pipeline : String → Except String (μ × μ))
    (type : Option String) (content : Option String) : List (OutboundFrame μ) :=
  if type = some "message" then handleUserMessage pipeline content
  else if type = some "ping" then [.pong]
  else [.error ("Unknown message type: " ++ pyShowOptStr type)]

/-- Frames sent during one loop iteration and whether the loop continues. -/
structure LoopStep (μ : Type) where
  sent : List (OutboundFrame μ)
  continues : Bool
  deriving DecidableEq, Repr

/-- One iteration of `message_loop` (base_handler.py lines 95-110): JSON
decode errors and any exception raised while handling the frame become error
frames, and the loop continues in every case. -/
def messageLoopStep (pipeline : String → Except String (μ × μ))
    (d : InboundData) : LoopStep μ :=
  match d with
  | .notJson => LoopStep.mk [.error "Invalid JSON format"] true
  | .nonDict => LoopStep.mk [.error "Failed to process message"] true
  | .dict t c => LoopStep.mk (handleMessage pipeline t c) true

/-! ## Watchdog (src/api/v1/websocket/demo_handler.py lines 113-132)

The only watchdog in the repository is the demo handler's `check_lifetime`
task: every 10 seconds it compares now to the connection start time and
closes the socket when the configured maximum lifetime is reached.  The
authenticated handler (handlers.py) starts no watchdog, and
`websocket_idle_timeout` is referenced by no handler.  One wake of the loop
is modelled; times are in seconds.
-/

structure CloseCommand where
  code : Nat
  reason : String
  deriving DecidableEq, Repr

/-- One wake of `check_lifetime`: elapsed time since connection start; at or
beyond `demo_ws_lifetime` the socket is closed with code 1000 and the fixed
reason string (demo_handler.py line 126) and the task ends. -/
def checkLifetimeWake (connectionStartTime now : Nat) : Option CloseCommand :=
  let elapsedTime := now - connectionStartTime
  if demoWsLifetime ≤ elapsedTime then
    some (CloseCommand.mk 1000 "Demo session expired (2 minutes)")
  else none

/-- Modelled from the spec: the idle-watchdog wake the claim describes — it
compares now to the time of the last successfully handled inbound frame and
closes with a distinguishable "idle timeout" reason once the elapsed time
exceeds `websocket_idle_timeout`.  No such code exists in the repository;
this definition exists only to be compared with `checkLifetimeWake`. -/
def idleWatchdogSpecWake (lastInboundFrameTime now : Nat) : Option CloseCommand :=
  if websocketIdleTimeout < now - lastInboundFrameTime then
    some (CloseCommand.mk 1000 "idle timeout")
  else none

/-! ## Concrete fixtures used by witnesses and counterexamples -/

/-- A provider oracle that always yields the given outcome. -/
def constProvider (o : ProviderOutcome) : LlmProvider Unit :=
  fun _ _ _ => o

/-- A provider oracle distinguishing the two dispatches by the tools argument:
the first call (tool schemas offered) yields `m`, the second (no schemas)
yields `o`. -/
def twoPhaseProvider (m : CompletionMessage) (o : ProviderOutcome) : LlmProvider β :=
  fun _ _ tools =>
    match tools with
    | some _ => .success m
    | none => o

/-- A JSON decoder oracle accepting everything. -/
def jsonLoadsTriv : String → Except String Unit := fun _ => .ok ()

/-- A JSON decoder oracle rejecting exactly the string "notjson". -/
def jsonLoadsPicky : String → Except String Unit :=
  fun s => if s = "notjson" then .error "Expecting value" else .ok ()

/-- A request with empty history and the user message "Hello". -/
def plainRequest : AgentRequestM Unit :=
  AgentRequestM.mk [] (AgentMessageM.mk "user" (some "Hello") none) 1

/-- A goal-creation tool whose execution succeeds. -/
def createGoalTool : ToolM Unit Unit :=
  ToolM.mk "create_goal" "Create a new goal" "schema" (fun _ => .ok ())

/-- A goal-creation tool whose execution raises. -/
def failingGoalTool : ToolM Unit Unit :=
  ToolM.mk "create_goal" "Create a new goal" "schema" (fun _ => .error "boom")

/-- First gateway reply of scenario B: one tool invocation request `t1`. -/
def scenarioBFirstMessage : CompletionMessage :=
  CompletionMessage.mk none
    [CompletionToolCall.mk "t1" "function" "create_goal" "\x7b\"title\": \"Ship v1\"\x7d"]

/-- Second gateway reply of scenario B. -/
def scenarioBFinalMessage : CompletionMessage :=
  CompletionMessage.mk (some "Created your goal.") []

/-- Provider oracle realising scenario B. -/
def scenarioBProvider : LlmProvider Unit :=
  twoPhaseProvider scenarioBFirstMessage (.success scenarioBFinalMessage)

/-- A Redis state with the single key of chat 7 holding one message. -/
def redisWithChat7 : RedisState Nat :=
  fun k => if k = getMessagesKey 7 then some [3] else none

/-- The empty Redis state. -/
def redisEmpty : RedisState Nat := fun _ => none

/-- The category of a provider failure as named by the specification. -/
inductive ProviderErrorCategory where
  | authentication
  | rateLimited
  | contextTooLong
  | otherProvider
  deriving DecidableEq, Repr

/-- Category assignment for a failing provider outcome. -/
def providerOutcomeCategory : ProviderOutcome → Option ProviderErrorCategory
  | .success _ => none
  | .authenticationError _ => some .authentication
  | .rateLimitError _ => some .rateLimited
  | .apiError d =>
      some (if isContextLengthDetail d then .contextTooLong else .otherProvider)
  | .unexpectedException _ => some .otherProvider

/-! ## Helper lemmas -/

theorem lastElems_suffix (n : Nat) (xs : List α) : lastElems n xs <:+ xs := by
  unfold lastElems
  split
  · exact List.suffix_refl xs
  · exact List.drop_suffix _ xs

theorem lastElems_length_le (n : Nat) (hn : 0 < n) (xs : List α) :
    (lastElems n xs).length ≤ n := by
  unfold lastElems
  rw [if_neg (Nat.pos_iff_ne_zero.mp hn)]
  rw [List.length_drop]
  omega

theorem lastElems_of_length_le (n : Nat) (xs : List α) (h : xs.length ≤ n) :
    lastElems n xs = xs := by
  unfold lastElems
  split
  · rfl
  · rw [Nat.sub_eq_zero_of_le h, List.drop_zero]

theorem suffix_append_right {l s : List α} (t : List α) (h : l <:+ s) :
    l ++ t <:+ s ++ t := by
  obtain ⟨u, hu⟩ := h
  exact ⟨u, by rw [← hu, List.append_assoc]⟩

/-! ## Theorems for the claims -/

/-- C1 (code bug): on scenario A's input — an existing chat with empty
history, user content "Hello", the orchestrator answering "Hi!" — the
conversation pipeline `ChatSessionService.process_user_message` does not
persist a user and an assistant message and return both: its very first
persistence step raises `TypeError`, because `MessageRepository.create`
passes the `tool_call_data` keyword to a `Message` model that has no such
attribute, so the call errors with nothing persisted and nothing returned
(and the later calls `get_chat_history(chat_id, limit=...)` and
`create_message(..., tool_call_data=...)` pass keywords their callees do not
accept either). -/
theorem C1_code_bug_pipeline_raises_type_error :
    processUserMessage (fun _ => true) (fun _ => []) [] "Hi!" 1 "Hello"
      = .error "TypeError: tool_call_data is an invalid keyword argument for Message" ∧
    pyKwCall msGetChatHistoryParams ["chat_id", "limit"]
      = .error "TypeError: unexpected keyword argument limit" ∧
    pyKwCall msCreateMessageParams ["chat_id", "role", "content", "tool_call_data"]
      = .error "TypeError: unexpected keyword argument tool_call_data" := by
  exact ⟨rfl, rfl, rfl⟩

/-- C2 (code bug): the `Message` model declares `content` with
`nullable=False` and no `tool_call_data` attribute at all, so
`MessageRepository.create` — which unconditionally passes the
`tool_call_data` keyword to the `Message` constructor — raises `TypeError`
on every call and never stores a tool-call payload on a created Message. -/
theorem C2_code_bug_message_model_rejects_tool_payload :
    messageRepositoryCreate 1 MessageRole.assistant none
        (some (ToolCallDataM.mk (β := Unit)
          [ToolCallM.mk "t1" "function" (some "create_goal") (some "\x7b\x7d")] []))
      = .error "TypeError: tool_call_data is an invalid keyword argument for Message" ∧
    messageModelAttributes.contains "tool_call_data" = false ∧
    messageContentNullable = false := by
  exact ⟨rfl, rfl, rfl⟩

/-- C3 counterexample: with threshold semantics as claimed (idle threshold
300s, no inbound frame for 301s) the watchdog that actually exists closes
with reason "Demo session expired (2 minutes)", not "idle timeout"; and at
130s of connection age with an inbound frame only 5s ago (no idle timeout
due) it closes anyway. -/
theorem C3_counterexample_watchdog_not_idle :
    checkLifetimeWake 0 301
      = some (CloseCommand.mk 1000 "Demo session expired (2 minutes)") ∧
    idleWatchdogSpecWake 0 301 = some (CloseCommand.mk 1000 "idle timeout") ∧
    checkLifetimeWake 0 301 ≠ idleWatchdogSpecWake 0 301 ∧
    idleWatchdogSpecWake 125 130 = none ∧
    checkLifetimeWake 0 130
      = some (CloseCommand.mk 1000 "Demo session expired (2 minutes)") := by
  refine ⟨rfl, rfl, ?_, rfl, rfl⟩
  decide

/-- C3 amended: the only watchdog is the demo handler's lifetime checker: on
each wake it closes the connection (code 1000, reason "Demo session expired
(2 minutes)") exactly when the time elapsed since connection start has
reached `demo_ws_lifetime` (120s), independently of when the last inbound
frame arrived; `websocket_idle_timeout` (300s) is defined in the settings but
used by no handler, and no idle watchdog exists. -/
theorem C3_amended_demo_lifetime_watchdog (connectionStartTime now : Nat) :
    (checkLifetimeWake connectionStartTime now
        = some (CloseCommand.mk 1000 "Demo session expired (2 minutes)")
      ↔ demoWsLifetime ≤ now - connectionStartTime) ∧
    (checkLifetimeWake connectionStartTime now = none
      ↔ now - connectionStartTime < demoWsLifetime) ∧
    demoWsLifetime = 120 ∧ websocketIdleTimeout = 300 := by
  unfold checkLifetimeWake
  by_cases h : demoWsLifetime ≤ now - connectionStartTime
  · rw [if_pos h]
    exact ⟨⟨fun _ => h, fun _ => rfl⟩,
      ⟨fun hc => by simp at hc, fun hlt => absurd h (by omega)⟩, rfl, rfl⟩
  · rw [if_neg h]
    exact ⟨⟨fun hc => by simp at hc, fun hle => absurd hle h⟩,
      ⟨fun _ => by omega, fun _ => rfl⟩, rfl, rfl⟩

/-- C10: the Redis-list cache conflates absent and empty: `get_messages`
returns `None` after `set_messages` with an empty sequence and after
`clear_chat`, and every non-None return value is a non-empty list. -/
theorem C10_empty_cache_is_absent {α : Type} (n : Nat) (s : RedisState α)
    (chatId : Nat) (l : List α) (h : cacheGetMessages s chatId = some l) :
    cacheGetMessages (cacheSetMessages n s chatId []) chatId = none ∧
    cacheGetMessages (cacheClearChat s chatId) chatId = none ∧
    l ≠ [] := by
  refine ⟨?_, ?_, ?_⟩
  · have hempty : lastElems n ([] : List α) = [] := by
      unfold lastElems; split <;> simp
    simp [cacheGetMessages, cacheSetMessages, hempty, redisDelete, redisLrangeAll]
  · simp [cacheGetMessages, cacheClearChat, redisDelete, redisLrangeAll]
  · simp only [cacheGetMessages] at h
    split at h
    · exact absurd h (by simp)
    · rename_i hne
      obtain rfl : redisLrangeAll s (getMessagesKey chatId) = l := by
        simpa using h
      simpa using hne

/-- C10 witness: instantiation at a one-element cache for chat 7. -/
theorem C10_witness_empty_cache_is_absent :
    cacheGetMessages redisWithChat7 7 = some [3] ∧
    (cacheGetMessages (cacheSetMessages 50 redisWithChat7 7 []) 7 = none ∧
      cacheGetMessages (cacheClearChat redisWithChat7 7) 7 = none ∧
      ([3] : List Nat) ≠ []) := by
  refine ⟨?_, C10_empty_cache_is_absent 50 redisWithChat7 7 [3] ?_⟩ <;> rfl

/-- C8 counterexample: a cache failure on read is NOT swallowed —
`get_chat_history` performs the cache read outside any try/except, so a Redis
read failure propagates to the caller instead of degrading to the store. -/
theorem C8_counterexample_cache_read_failure_propagates :
    msGetChatHistory (RedisFaults.mk true false) 50 (fun _ => [3]) redisEmpty 1 true
      = .error "redis connection failure on read" := by
  rfl

/-- C8 amended: in `get_chat_history` a repopulating cache WRITE failure is
logged and swallowed and the store's messages are still returned, but the
cache READ is not wrapped in try/except, so a read failure propagates to the
caller.  In `create_message` the cache-add step is wrapped in try/except that
swallows any cache failure, but that step is unreachable: `create_message`
raises `TypeError` at its persistence step on every call (the `Message`
constructor rejects the `tool_call_data` keyword, see C1/C2), so it never
returns a persisted message and its outcome is identical under every cache
fault. -/
theorem C8_amended_cache_failure_policy {α : Type} (f fR : RedisFaults) (n : Nat)
    (chats : Nat → Bool) (store : Nat → List α) (cache : RedisState α)
    (storeRow : Nat → List MessageRow) (cacheRow : RedisState MessageRow)
    (chatId : Nat) (role : MessageRole) (content : String) (m : α) (r : Bool)
    (hchat : chats chatId = true)
    (hok : f.readFails = false) (hbad : fR.readFails = true) :
    msCreateMessage f n chats storeRow cacheRow chatId role content
      = .error "TypeError: tool_call_data is an invalid keyword argument for Message" ∧
    msCreateMessageCacheStep (RedisFaults.mk r true) n cache chatId m = cache ∧
    msCreateMessageCacheStep (RedisFaults.mk r false) n cache chatId m
      = cacheAddMessage n cache chatId m ∧
    (∃ res, msGetChatHistory f n store cache chatId true = .ok res ∧
        (cacheGetMessages cache chatId = none →
          res.1 = sqlRecentMessages store chatId n)) ∧
    msGetChatHistory fR n store cache chatId true
      = .error "redis connection failure on read" := by
  refine ⟨?_, rfl, rfl, ?_, ?_⟩
  · unfold msCreateMessage
    rw [if_pos hchat]
    rfl
  · unfold msGetChatHistory
    rw [if_pos rfl]
    unfold cacheGetMessagesE
    rw [if_neg (by simp [hok])]
    cases hc : cacheGetMessages cache chatId with
    | some cached =>
        exact ⟨(cached, cache), rfl, fun hnone => Option.noConfusion hnone⟩
    | none => exact ⟨_, rfl, fun _ => rfl⟩
  · unfold msGetChatHistory
    rw [if_pos rfl]
    unfold cacheGetMessagesE
    rw [if_pos hbad]

/-- C8 witness: write-failing Redis for the swallow clauses, read-failing
Redis for the propagation clause, an existing chat 1, and a store holding one
message; the amended policy instantiated. -/
theorem C8_witness_cache_failure_policy :
    ((fun _ => true : Nat → Bool) 1 = true ∧
      (RedisFaults.mk false true).readFails = false ∧
      (RedisFaults.mk true false).readFails = true) ∧
    (msCreateMessage (RedisFaults.mk false true) 50 (fun _ => true)
        (fun _ => []) (fun _ => none) 1 MessageRole.user "Hello"
      = .error "TypeError: tool_call_data is an invalid keyword argument for Message" ∧
    msCreateMessageCacheStep (RedisFaults.mk true true) 50 redisEmpty 1 9 = redisEmpty ∧
    msCreateMessageCacheStep (RedisFaults.mk true false) 50 redisEmpty 1 9
      = cacheAddMessage 50 redisEmpty 1 9 ∧
    (∃ res, msGetChatHistory (RedisFaults.mk false true) 50 (fun _ => [5])
            redisEmpty 1 true = .ok res ∧
        (cacheGetMessages redisEmpty 1 = none →
          res.1 = sqlRecentMessages (fun _ => [5]) 1 50)) ∧
    msGetChatHistory (RedisFaults.mk true false) 50 (fun _ => [5]) redisEmpty 1 true
      = .error "redis connection failure on read") := by
  exact ⟨⟨rfl, rfl, rfl⟩,
    C8_amended_cache_failure_policy (RedisFaults.mk false true) (RedisFaults.mk true false)
      50 (fun _ => true) (fun _ => [5]) redisEmpty (fun _ => []) (fun _ => none)
      1 MessageRole.user "Hello" 9 true rfl rfl rfl⟩

theorem cacheSetMessages_lrange {α : Type} (n : Nat) (s : RedisState α)
    (chatId : Nat) (messages : List α) :
    redisLrangeAll (cacheSetMessages n s chatId messages) (getMessagesKey chatId)
      = lastElems n messages := by
  simp only [cacheSetMessages]
  split
  · rename_i hE
    rw [List.isEmpty_iff] at hE
    simp [redisLrangeAll, redisDelete, hE]
  · simp [redisLrangeAll, redisRpush, redisDelete]

theorem cacheAddMessage_lrange {α : Type} (n : Nat) (s : RedisState α)
    (chatId : Nat) (m : α) :
    redisLrangeAll (cacheAddMessage n s chatId m) (getMessagesKey chatId)
      = lastElems n (redisLrangeAll s (getMessagesKey chatId) ++ [m]) := by
  simp [cacheAddMessage, redisLtrimLast, redisRpush, redisLrangeAll]

/-- C7: the cache layer maintains the bounded-suffix discipline:
`set_messages` stores exactly the last N of the given messages (a suffix of
length at most N); `add_message` appends one message and trims to the last N,
staying a suffix of the store after the same append; and a cache miss in
`get_chat_history` loads the store's most recent N messages, repopulates the
cache with exactly them, and returns them. -/
theorem C7_cache_suffix_invariant {α : Type} (n : Nat) (s sMiss : RedisState α)
    (store : Nat → List α) (chatId : Nat) (messages : List α) (m : α)
    (hn : 0 < n)
    (hsuf : redisLrangeAll s (getMessagesKey chatId) <:+ store chatId)
    (hmiss : cacheGetMessages sMiss chatId = none) :
    (redisLrangeAll (cacheSetMessages n s chatId messages) (getMessagesKey chatId)
        = lastElems n messages ∧
      lastElems n messages <:+ messages ∧
      (lastElems n messages).length ≤ n) ∧
    (redisLrangeAll (cacheAddMessage n s chatId m) (getMessagesKey chatId)
        = lastElems n (redisLrangeAll s (getMessagesKey chatId) ++ [m]) ∧
      redisLrangeAll (cacheAddMessage n s chatId m) (getMessagesKey chatId)
        <:+ store chatId ++ [m] ∧
      (redisLrangeAll (cacheAddMessage n s chatId m) (getMessagesKey chatId)).length ≤ n) ∧
    (msGetChatHistory noFaults n store sMiss chatId true
        = .ok (sqlRecentMessages store chatId n,
            if (sqlRecentMessages store chatId n).isEmpty then sMiss
            else cacheSetMessages n sMiss chatId (sqlRecentMessages store chatId n)) ∧
      sqlRecentMessages store chatId n <:+ store chatId ∧
      (sqlRecentMessages store chatId n).length ≤ n ∧
      redisLrangeAll
          (cacheSetMessages n sMiss chatId (sqlRecentMessages store chatId n))
          (getMessagesKey chatId)
        = sqlRecentMessages store chatId n) := by
  have hrecentLen : (sqlRecentMessages store chatId n).length ≤ n := by
    unfold sqlRecentMessages
    rw [List.length_drop]
    omega
  refine ⟨⟨cacheSetMessages_lrange n s chatId messages,
      lastElems_suffix n messages, lastElems_length_le n hn messages⟩, ?_, ?_, ?_, hrecentLen, ?_⟩
  · refine ⟨cacheAddMessage_lrange n s chatId m, ?_, ?_⟩
    · rw [cacheAddMessage_lrange n s chatId m]
      exact (lastElems_suffix n _).trans (suffix_append_right [m] hsuf)
    · rw [cacheAddMessage_lrange n s chatId m]
      exact lastElems_length_le n hn _
  · unfold msGetChatHistory
    rw [if_pos rfl]
    unfold cacheGetMessagesE
    rw [if_neg (by simp [noFaults])]
    rw [hmiss]
    rfl
  · exact List.drop_suffix _ _
  · rw [cacheSetMessages_lrange n sMiss chatId (sqlRecentMessages store chatId n)]
    exact lastElems_of_length_le n _ hrecentLen

/-- C7 witness: bound 50, a cache holding the suffix `[3]` of the store
`[1,2,3]` for chat 7, and the empty cache as the miss state. -/
theorem C7_witness_cache_suffix_invariant :
    (0 < 50 ∧
      redisLrangeAll redisWithChat7 (getMessagesKey 7) <:+ [1, 2, 3] ∧
      cacheGetMessages redisEmpty 7 = none) ∧
    ((redisLrangeAll (cacheSetMessages 50 redisWithChat7 7 [9, 8]) (getMessagesKey 7)
        = lastElems 50 [9, 8] ∧
      lastElems 50 [9, 8] <:+ [9, 8] ∧
      (lastElems 50 [9, 8]).length ≤ 50) ∧
    (redisLrangeAll (cacheAddMessage 50 redisWithChat7 7 4) (getMessagesKey 7)
        = lastElems 50 (redisLrangeAll redisWithChat7 (getMessagesKey 7) ++ [4]) ∧
      redisLrangeAll (cacheAddMessage 50 redisWithChat7 7 4) (getMessagesKey 7)
        <:+ [1, 2, 3] ++ [4] ∧
      (redisLrangeAll (cacheAddMessage 50 redisWithChat7 7 4) (getMessagesKey 7)).length ≤ 50) ∧
    (msGetChatHistory noFaults 50 (fun _ => [1, 2, 3]) redisEmpty 7 true
        = .ok (sqlRecentMessages (fun _ => [1, 2, 3]) 7 50,
            if (sqlRecentMessages (fun _ => [1, 2, 3]) 7 50).isEmpty then redisEmpty
            else cacheSetMessages 50 redisEmpty 7 (sqlRecentMessages (fun _ => [1, 2, 3]) 7 50)) ∧
      sqlRecentMessages (fun _ => [1, 2, 3]) 7 50 <:+ [1, 2, 3] ∧
      (sqlRecentMessages (fun _ => [1, 2, 3]) 7 50).length ≤ 50 ∧
      redisLrangeAll
          (cacheSetMessages 50 redisEmpty 7 (sqlRecentMessages (fun _ => [1, 2, 3]) 7 50))
          (getMessagesKey 7)
        = sqlRecentMessages (fun _ => [1, 2, 3]) 7 50)) := by
  refine ⟨⟨by decide, ⟨[1, 2], by rfl⟩, rfl⟩, ?_⟩
  exact C7_cache_suffix_invariant 50 redisWithChat7 redisEmpty (fun _ => [1, 2, 3]) 7
    [9, 8] 4 (by decide) ⟨[1, 2], by rfl⟩ rfl

theorem executeToolCall_ok_of_name (jsonLoads : String → Except String γ)
    (reg : List (ToolM γ β)) (tc : ToolCallM) (nm : String)
    (h : tc.functionName = some nm) :
    ∃ r, executeToolCall jsonLoads reg tc = .ok r ∧
      r.toolCallId = tc.id ∧ r.name = nm := by
  cases hg : getTool reg nm with
  | none =>
    exact ⟨ToolResultM.mk tc.id nm
        (.errorNotFound ("Tool '" ++ nm ++ "' not found") (toolNames reg)),
      by simp [executeToolCall, h, hg, mkToolResult, pyShowOptStr], rfl, rfl⟩
  | some tool =>
    cases hj : jsonLoads (tc.functionArguments.getD "\x7b\x7d") with
    | error e =>
      exact ⟨ToolResultM.mk tc.id nm
          (.errorInvalidArguments ("Invalid JSON arguments: " ++ e)),
        by simp [executeToolCall, h, hg, hj, mkToolResult], rfl, rfl⟩
    | ok args =>
      cases hex : tool.execute args with
      | ok r =>
        exact ⟨ToolResultM.mk tc.id nm (.ok r),
          by simp [executeToolCall, h, hg, hj, hex, mkToolResult], rfl, rfl⟩
      | error e =>
        exact ⟨ToolResultM.mk tc.id nm
            (.errorExecutionFailed ("Tool execution failed: " ++ e) tool.name),
          by simp [executeToolCall, h, hg, hj, hex, mkToolResult], rfl, rfl⟩

theorem executeToolCallsSeq_ok_of_names (jsonLoads : String → Except String γ)
    (reg : List (ToolM γ β)) (tcs : List ToolCallM)
    (h : ∀ tc ∈ tcs, tc.functionName.isSome = true) :
    ∃ rs, executeToolCallsSeq jsonLoads reg tcs = .ok rs ∧
      rs.length = tcs.length ∧
      ∀ i (hi : i < rs.length) (hj : i < tcs.length),
        (rs.get ⟨i, hi⟩).toolCallId = (tcs.get ⟨i, hj⟩).id := by
  induction tcs with
  | nil =>
    exact ⟨[], rfl, rfl, fun i hi hj => absurd hi (by simp)⟩
  | cons tc rest ih =>
    obtain ⟨nm, hnm⟩ := Option.isSome_iff_exists.mp (h tc (by simp))
    obtain ⟨r, hr, hrid, _⟩ := executeToolCall_ok_of_name jsonLoads reg tc nm hnm
    obtain ⟨rs, hrs, hlen, hids⟩ := ih (fun u hu => h u (by simp [hu]))
    refine ⟨r :: rs, ?_, by simp [hlen], ?_⟩
    · simp only [executeToolCallsSeq, hr, hrs]
    · intro i hi hj
      cases i with
      | zero => simpa using hrid
      | succ k =>
        simpa using hids k (by simpa using hi) (by simpa using hj)

/-- C5 counterexample: `execute_tool_calls` CAN raise — a ToolCall whose
function payload lacks the "name" key resolves no tool, and building the
error ToolResult then passes `name=None` to a pydantic field typed `str`,
raising a ValidationError instead of returning an error result. -/
theorem C5_counterexample_missing_name_raises :
    executeToolCallsSeq jsonLoadsTriv ([] : List (ToolM Unit Unit))
        [ToolCallM.mk "t1" "function" none none]
      = .error "ValidationError: name must be a string" := by
  rfl

/-- C5 amended: for every list of K ToolCall requests in which each request's
function payload carries a tool name (as all OpenAI-derived tool calls do),
`execute_tool_calls` returns exactly K results in request order, each
correlated to its request by id; an unknown tool name yields an error result
naming the unknown tool and listing the available tool names, a JSON
argument-decode failure yields an error result rather than an exception, and
an exception raised by the tool itself is captured into an error result
carrying the tool name and a failure description.  A request whose function
payload lacks the tool name instead makes the call raise (see the
counterexample). -/
theorem C5_amended_tool_result_completeness {γ β : Type}
    (jsonLoads : String → Except String γ) (reg : List (ToolM γ β))
    (tcs : List ToolCallM) (tcU tcB tcE : ToolCallM) (nmU nmB nmE : String)
    (toolB toolE : ToolM γ β) (argsE : γ) (eB eE : String)
    (hnames : ∀ c ∈ tcs, c.functionName.isSome = true)
    (hU1 : tcU.functionName = some nmU) (hU2 : getTool reg nmU = none)
    (hB1 : tcB.functionName = some nmB) (hB2 : getTool reg nmB = some toolB)
    (hB3 : jsonLoads (tcB.functionArguments.getD "\x7b\x7d") = .error eB)
    (hE1 : tcE.functionName = some nmE) (hE2 : getTool reg nmE = some toolE)
    (hE3 : jsonLoads (tcE.functionArguments.getD "\x7b\x7d") = .ok argsE)
    (hE4 : toolE.execute argsE = .error eE) :
    (∃ rs, executeToolCallsSeq jsonLoads reg tcs = .ok rs ∧
      rs.length = tcs.length ∧
      ∀ i (hi : i < rs.length) (hj : i < tcs.length),
        (rs.get ⟨i, hi⟩).toolCallId = (tcs.get ⟨i, hj⟩).id) ∧
    executeToolCall jsonLoads reg tcU
      = .ok (ToolResultM.mk tcU.id nmU
          (.errorNotFound ("Tool '" ++ nmU ++ "' not found") (toolNames reg))) ∧
    executeToolCall jsonLoads reg tcB
      = .ok (ToolResultM.mk tcB.id nmB
          (.errorInvalidArguments ("Invalid JSON arguments: " ++ eB))) ∧
    executeToolCall jsonLoads reg tcE
      = .ok (ToolResultM.mk tcE.id nmE
          (.errorExecutionFailed ("Tool execution failed: " ++ eE) toolE.name)) := by
  refine ⟨executeToolCallsSeq_ok_of_names jsonLoads reg tcs hnames, ?_, ?_, ?_⟩
  · simp [executeToolCall, hU1, hU2, mkToolResult, pyShowOptStr]
  · simp [executeToolCall, hB1, hB2, hB3, mkToolResult]
  · simp [executeToolCall, hE1, hE2, hE3, hE4, mkToolResult]

/-- C5 witness: a registry holding one failing "create_goal" tool, a decoder
rejecting "notjson", and the three error-shaped requests plus the full list. -/
theorem C5_witness_tool_result_completeness :
    ((∀ c ∈ [ToolCallM.mk "t1" "function" (some "ghost") none,
             ToolCallM.mk "t2" "function" (some "create_goal") (some "notjson"),
             ToolCallM.mk "t3" "function" (some "create_goal") (some "ok")],
        c.functionName.isSome = true) ∧
      (ToolCallM.mk "t1" "function" (some "ghost") none).functionName = some "ghost" ∧
      getTool [failingGoalTool] "ghost" = none) ∧
    ((∃ rs, executeToolCallsSeq jsonLoadsPicky [failingGoalTool]
          [ToolCallM.mk "t1" "function" (some "ghost") none,
           ToolCallM.mk "t2" "function" (some "create_goal") (some "notjson"),
           ToolCallM.mk "t3" "function" (some "create_goal") (some "ok")] = .ok rs ∧
      rs.length = [ToolCallM.mk "t1" "function" (some "ghost") none,
           ToolCallM.mk "t2" "function" (some "create_goal") (some "notjson"),
           ToolCallM.mk "t3" "function" (some "create_goal") (some "ok")].length ∧
      ∀ i (hi : i < rs.length)
          (hj : i < [ToolCallM.mk "t1" "function" (some "ghost") none,
             ToolCallM.mk "t2" "function" (some "create_goal") (some "notjson"),
             ToolCallM.mk "t3" "function" (some "create_goal") (some "ok")].length),
        (rs.get ⟨i, hi⟩).toolCallId
          = ([ToolCallM.mk "t1" "function" (some "ghost") none,
              ToolCallM.mk "t2" "function" (some "create_goal") (some "notjson"),
              ToolCallM.mk "t3" "function" (some "create_goal") (some "ok")].get ⟨i, hj⟩).id) ∧
    executeToolCall jsonLoadsPicky [failingGoalTool]
        (ToolCallM.mk "t1" "function" (some "ghost") none)
      = .ok (ToolResultM.mk "t1" "ghost"
          (.errorNotFound ("Tool '" ++ "ghost" ++ "' not found")
            (toolNames [failingGoalTool]))) ∧
    executeToolCall jsonLoadsPicky [failingGoalTool]
        (ToolCallM.mk "t2" "function" (some "create_goal") (some "notjson"))
      = .ok (ToolResultM.mk "t2" "create_goal"
          (.errorInvalidArguments ("Invalid JSON arguments: " ++ "Expecting value"))) ∧
    executeToolCall jsonLoadsPicky [failingGoalTool]
        (ToolCallM.mk "t3" "function" (some "create_goal") (some "ok"))
      = .ok (ToolResultM.mk "t3" "create_goal"
          (.errorExecutionFailed ("Tool execution failed: " ++ "boom")
            failingGoalTool.name))) := by
  refine ⟨⟨by decide, rfl, rfl⟩, ?_⟩
  exact C5_amended_tool_result_completeness jsonLoadsPicky [failingGoalTool]
    [ToolCallM.mk "t1" "function" (some "ghost") none,
     ToolCallM.mk "t2" "function" (some "create_goal") (some "notjson"),
     ToolCallM.mk "t3" "function" (some "create_goal") (some "ok")]
    (ToolCallM.mk "t1" "function" (some "ghost") none)
    (ToolCallM.mk "t2" "function" (some "create_goal") (some "notjson"))
    (ToolCallM.mk "t3" "function" (some "create_goal") (some "ok"))
    "ghost" "create_goal" "create_goal" failingGoalTool failingGoalTool () "Expecting value" "boom"
    (by decide) rfl rfl rfl rfl rfl rfl rfl rfl rfl

/-- C9: every inbound frame yields a step that keeps the loop alive: a
non-parseable frame yields an error frame; an unknown type yields an error
frame; an empty or whitespace-only content on a "message" frame yields the
validation error frame; and an exception from the conversation pipeline is
converted to an error frame — in all cases the loop continues. -/
theorem C9_message_loop_error_frames {μ : Type}
    (pipeline : String → Except String (μ × μ)) (d : InboundData)
    (t c c2 : Option String) (s e : String)
    (ht1 : t ≠ some "message") (ht2 : t ≠ some "ping")
    (hempty : pyStrip (c2.getD "") = "")
    (hs : pyStrip s ≠ "") (hpipe : pipeline (pyStrip s) = .error e) :
    (messageLoopStep pipeline d).continues = true ∧
    messageLoopStep pipeline .notJson
      = LoopStep.mk [.error "Invalid JSON format"] true ∧
    messageLoopStep pipeline .nonDict
      = LoopStep.mk [.error "Failed to process message"] true ∧
    messageLoopStep pipeline (.dict t c)
      = LoopStep.mk [.error ("Unknown message type: " ++ pyShowOptStr t)] true ∧
    messageLoopStep pipeline (.dict (some "message") c2)
      = LoopStep.mk [.error "Message content cannot be empty"] true ∧
    messageLoopStep pipeline (.dict (some "message") (some s))
      = LoopStep.mk
          [.error "Sorry, I couldn't process your message. Please try again."] true := by
  refine ⟨?_, rfl, rfl, ?_, ?_, ?_⟩
  · cases d <;> rfl
  · simp [messageLoopStep, handleMessage, ht1, ht2]
  · simp [messageLoopStep, handleMessage, handleUserMessage, hempty]
  · simp [messageLoopStep, handleMessage, handleUserMessage, hs, hpipe]

/-- C9 witness: a pipeline failing on "Hello", with a frame of unknown type
"bogus" and a whitespace-only content frame. -/
theorem C9_witness_message_loop_error_frames :
    ((some "bogus" : Option String) ≠ some "message" ∧
      (some "bogus" : Option String) ≠ some "ping" ∧
      pyStrip ((some "  " : Option String).getD "") = "" ∧
      pyStrip "Hello" ≠ "" ∧
      (fun _ => (.error "DB down" : Except String (Nat × Nat))) (pyStrip "Hello")
        = .error "DB down") ∧
    ((messageLoopStep (fun _ => (.error "DB down" : Except String (Nat × Nat)))
        InboundData.notJson).continues = true ∧
    messageLoopStep (fun _ => (.error "DB down" : Except String (Nat × Nat))) .notJson
      = LoopStep.mk [.error "Invalid JSON format"] true ∧
    messageLoopStep (fun _ => (.error "DB down" : Except String (Nat × Nat))) .nonDict
      = LoopStep.mk [.error "Failed to process message"] true ∧
    messageLoopStep (fun _ => (.error "DB down" : Except String (Nat × Nat)))
        (.dict (some "bogus") none)
      = LoopStep.mk [.error ("Unknown message type: " ++ pyShowOptStr (some "bogus"))] true ∧
    messageLoopStep (fun _ => (.error "DB down" : Except String (Nat × Nat)))
        (.dict (some "message") (some "  "))
      = LoopStep.mk [.error "Message content cannot be empty"] true ∧
    messageLoopStep (fun _ => (.error "DB down" : Except String (Nat × Nat)))
        (.dict (some "message") (some "Hello"))
      = LoopStep.mk
          [.error "Sorry, I couldn't process your message. Please try again."] true) := by
  refine ⟨⟨by decide, by decide, by decide, by decide, rfl⟩, ?_⟩
  exact C9_message_loop_error_frames
    (fun _ => (.error "DB down" : Except String (Nat × Nat)))
    InboundData.notJson (some "bogus") none (some "  ") "Hello" "DB down"
    (by decide) (by decide) (by decide) (by decide) rfl

theorem agentProcess_after_tools {γ β : Type} (provider : LlmProvider β)
    (jsonLoads : String → Except String γ) (reg : List (ToolM γ β))
    (req : AgentRequestM β) (m : CompletionMessage) (rs : List (ToolResultM β))
    (hfirst : provider (req.chatHistory ++ [req.userMessage]) systemMessageText
        (toolsArgument reg) = .success m)
    (htc : m.toolCalls ≠ [])
    (hrs : executeToolCallsSeq jsonLoads reg (m.toolCalls.map convertToolCall) = .ok rs) :
    agentProcess provider jsonLoads reg req
      = (match chatCompletionResult (provider
            (req.chatHistory ++ [req.userMessage] ++
              [AgentMessageM.mk "assistant" m.content
                (some (ToolCallDataM.mk (List.map convertToolCall m.toolCalls) rs))])
            systemMessageText none) with
         | .ok finalResponse =>
             AgentResponseM.mk (finalResponse.content.getD "")
               (some (ToolCallDataM.mk (List.map convertToolCall m.toolCalls) rs))
         | .error e => AgentResponseM.mk (handleProcessError (.llmErr e)) none) := by
  have hE : m.toolCalls.isEmpty = false := by
    simpa [List.isEmpty_iff] using htc
  simp only [agentProcess, processBody, chatCompletionCall, executeToolCallsPhase,
    hfirst, chatCompletionResult, hE, Bool.false_eq_true, if_false, hrs]
  generalize provider
      (req.chatHistory ++ [req.userMessage] ++
        [AgentMessageM.mk "assistant" m.content
          (some (ToolCallDataM.mk (List.map convertToolCall m.toolCalls) rs))])
      systemMessageText none = o
  cases o with
  | apiError detail =>
      by_cases hctx : isContextLengthDetail detail = true <;> simp [hctx]
  | success m2 => rfl
  | authenticationError detail => rfl
  | rateLimitError detail => rfl
  | unexpectedException detail => rfl

/-- C6: when the first reply carries tool calls, the orchestrator executes
them all (one result per request, correlated by id), appends exactly ONE
assistant message carrying both the requests and the full set of results,
issues the second LLM call on that extended history with no tool schemas, and
returns the second reply's text as the final content together with metadata
listing every request and result. -/
theorem C6_two_phase_tool_dispatch {γ β : Type} (provider : LlmProvider β)
    (jsonLoads : String → Except String γ) (reg : List (ToolM γ β))
    (req : AgentRequestM β) (m : CompletionMessage)
    (hfirst : provider (req.chatHistory ++ [req.userMessage]) systemMessageText
        (toolsArgument reg) = .success m)
    (htc : m.toolCalls ≠ []) :
    ∃ toolResults,
      executeToolCallsSeq jsonLoads reg (m.toolCalls.map convertToolCall) = .ok toolResults ∧
      toolResults.length = m.toolCalls.length ∧
      (∀ i (hi : i < toolResults.length) (hj : i < m.toolCalls.length),
        (toolResults.get ⟨i, hi⟩).toolCallId = (m.toolCalls.get ⟨i, hj⟩).id) ∧
      agentProcess provider jsonLoads reg req
        = (match chatCompletionResult (provider
              ((req.chatHistory ++ [req.userMessage]) ++
                [AgentMessageM.mk "assistant" m.content
                  (some (ToolCallDataM.mk (m.toolCalls.map convertToolCall) toolResults))])
              systemMessageText none) with
           | .ok finalResponse =>
               AgentResponseM.mk (finalResponse.content.getD "")
                 (some (ToolCallDataM.mk (m.toolCalls.map convertToolCall) toolResults))
           | .error e => AgentResponseM.mk (handleProcessError (.llmErr e)) none) := by
  have hnames : ∀ tc ∈ m.toolCalls.map convertToolCall, tc.functionName.isSome = true := by
    intro tc htc2
    obtain ⟨c, _, rfl⟩ := List.mem_map.mp htc2
    rfl
  obtain ⟨rs, hrs, hlen, hids⟩ :=
    executeToolCallsSeq_ok_of_names jsonLoads reg (m.toolCalls.map convertToolCall) hnames
  have hlen2 : rs.length = m.toolCalls.length := by simpa using hlen
  refine ⟨rs, hrs, hlen2, ?_, ?_⟩
  · intro i hi hj
    have hj2 : i < (m.toolCalls.map convertToolCall).length := by simpa using hj
    have := hids i hi hj2
    rw [this]
    simp [convertToolCall, List.getElem_map]
  · exact agentProcess_after_tools provider jsonLoads reg req m rs hfirst htc hrs

/-- C6 witness: scenario B — the first reply requests tool `t1`
("create_goal"), the registry succeeds, the second reply says "Created your
goal."; the two-phase theorem instantiated on it. -/
theorem C6_witness_two_phase_tool_dispatch :
    (scenarioBProvider (plainRequest.chatHistory ++ [plainRequest.userMessage])
        systemMessageText (toolsArgument [createGoalTool])
      = .success scenarioBFirstMessage ∧
      scenarioBFirstMessage.toolCalls ≠ []) ∧
    (∃ toolResults,
      executeToolCallsSeq jsonLoadsTriv [createGoalTool]
          (scenarioBFirstMessage.toolCalls.map convertToolCall) = .ok toolResults ∧
      toolResults.length = scenarioBFirstMessage.toolCalls.length ∧
      (∀ i (hi : i < toolResults.length)
          (hj : i < scenarioBFirstMessage.toolCalls.length),
        (toolResults.get ⟨i, hi⟩).toolCallId
          = (scenarioBFirstMessage.toolCalls.get ⟨i, hj⟩).id) ∧
      agentProcess scenarioBProvider jsonLoadsTriv [createGoalTool] plainRequest
        = (match chatCompletionResult (scenarioBProvider
              ((plainRequest.chatHistory ++ [plainRequest.userMessage]) ++
                [AgentMessageM.mk "assistant" scenarioBFirstMessage.content
                  (some (ToolCallDataM.mk
                    (scenarioBFirstMessage.toolCalls.map convertToolCall) toolResults))])
              systemMessageText none) with
           | .ok finalResponse =>
               AgentResponseM.mk (finalResponse.content.getD "")
                 (some (ToolCallDataM.mk
                   (scenarioBFirstMessage.toolCalls.map convertToolCall) toolResults))
           | .error e => AgentResponseM.mk (handleProcessError (.llmErr e)) none)) := by
  refine ⟨⟨rfl, by decide⟩, ?_⟩
  exact C6_two_phase_tool_dispatch scenarioBProvider jsonLoadsTriv [createGoalTool]
    plainRequest scenarioBFirstMessage rfl (by decide)

/-- C4 counterexample: the reply text for the "any other provider error"
category is NOT a fixed text — two provider errors of that same category
yield different contents, because the LLMError handler embeds the exception's
own message ("Sorry, I encountered an error: " followed by the detail). -/
theorem C4_counterexample_provider_error_text_not_fixed :
    providerOutcomeCategory (.apiError "connection reset by peer")
      = providerOutcomeCategory (.apiError "server overloaded") ∧
    (agentProcess (constProvider (.apiError "connection reset by peer"))
        jsonLoadsTriv [] plainRequest).content
      ≠ (agentProcess (constProvider (.apiError "server overloaded"))
        jsonLoadsTriv [] plainRequest).content := by
  exact ⟨by decide, by decide⟩

/-- C4 amended: the orchestrator never propagates a gateway failure, at the
first or the second call: an authentication failure yields the fixed
configuration-error text, a rate-limit failure the fixed too-many-requests
text, a context-too-long failure the text "Sorry, I encountered an error: "
followed by the client's fixed context-length message (through the generic
LLMError handler, not a dedicated branch), any other provider error the same
lead followed by that error's own description (category-specific wording, but
not a fixed text), and any other unexpected failure the fixed generic text;
the fixed texts are pairwise distinct. -/
theorem C4_amended_error_category_texts {γ β : Type}
    (jsonLoads : String → Except String γ) (reg : List (ToolM γ β))
    (req : AgentRequestM β) (d dCtx dOther : String) (m : CompletionMessage)
    (o : ProviderOutcome) (e : LLMErr)
    (hreg : reg ≠ []) (hm : m.toolCalls ≠ [])
    (hctx : isContextLengthDetail dCtx = true)
    (hother : isContextLengthDetail dOther = false)
    (ho : chatCompletionResult o = .error e) :
    agentProcess (fun _ _ _ => .authenticationError d) jsonLoads reg req
      = AgentResponseM.mk authenticationErrorText none ∧
    agentProcess (fun _ _ _ => .rateLimitError d) jsonLoads reg req
      = AgentResponseM.mk rateLimitErrorText none ∧
    agentProcess (fun _ _ _ => .apiError dCtx) jsonLoads reg req
      = AgentResponseM.mk
          (llmErrorLead ++ "Message history too long. Please start a new chat.") none ∧
    agentProcess (fun _ _ _ => .apiError dOther) jsonLoads reg req
      = AgentResponseM.mk (llmErrorLead ++ ("OpenAI API error: " ++ dOther)) none ∧
    agentProcess (fun _ _ _ => .unexpectedException d) jsonLoads reg req
      = AgentResponseM.mk (llmErrorLead ++ ("Unexpected LLM error: " ++ d)) none ∧
    agentProcess (twoPhaseProvider m o) jsonLoads reg req
      = AgentResponseM.mk (handleProcessError (.llmErr e)) none ∧
    handleProcessError (.pyExc d) = unexpectedErrorText ∧
    (authenticationErrorText ≠ rateLimitErrorText ∧
      authenticationErrorText
        ≠ llmErrorLead ++ "Message history too long. Please start a new chat." ∧
      authenticationErrorText ≠ unexpectedErrorText ∧
      rateLimitErrorText
        ≠ llmErrorLead ++ "Message history too long. Please start a new chat." ∧
      rateLimitErrorText ≠ unexpectedErrorText ∧
      llmErrorLead ++ "Message history too long. Please start a new chat."
        ≠ unexpectedErrorText) := by
  have hregE : reg.isEmpty = false := by
    simpa [List.isEmpty_iff] using hreg
  have hmE : m.toolCalls.isEmpty = false := by
    simpa [List.isEmpty_iff] using hm
  have hnames : ∀ tc ∈ m.toolCalls.map convertToolCall, tc.functionName.isSome = true := by
    intro tc htc2
    obtain ⟨c, _, rfl⟩ := List.mem_map.mp htc2
    rfl
  obtain ⟨rs, hrs, _, _⟩ :=
    executeToolCallsSeq_ok_of_names jsonLoads reg (m.toolCalls.map convertToolCall) hnames
  refine ⟨rfl, rfl, ?_, ?_, rfl, ?_, rfl, by decide, by decide, by decide, by decide,
    by decide, by decide⟩
  · simp [agentProcess, processBody, chatCompletionCall, chatCompletionResult, hctx,
      handleProcessError]
  · simp [agentProcess, processBody, chatCompletionCall, chatCompletionResult, hother,
      handleProcessError]
  · have hfirstEq : (twoPhaseProvider m o : LlmProvider β)
        (req.chatHistory ++ [req.userMessage]) systemMessageText (toolsArgument reg)
        = .success m := by
      unfold twoPhaseProvider toolsArgument
      rw [hregE]
      rfl
    rw [agentProcess_after_tools (twoPhaseProvider m o) jsonLoads reg req m rs
      hfirstEq hm hrs]
    rw [show (twoPhaseProvider m o : LlmProvider β)
        (req.chatHistory ++ [req.userMessage] ++
          [AgentMessageM.mk "assistant" m.content
            (some (ToolCallDataM.mk (List.map convertToolCall m.toolCalls) rs))])
        systemMessageText none = o from rfl]
    rw [ho]

/-- C4 witness: the amended mapping instantiated on scenario-like inputs —
one registered tool, scenario B's first reply for the second-call clause, a
context-length provider detail and a generic one, and a rate-limit failure at
the second call. -/
theorem C4_witness_error_category_texts :
    ([createGoalTool] ≠ [] ∧
      scenarioBFirstMessage.toolCalls ≠ [] ∧
      isContextLengthDetail "maximum context length exceeded" = true ∧
      isContextLengthDetail "connection reset" = false ∧
      chatCompletionResult (.rateLimitError "slow down")
        = .error (.rateLimit "OpenAI rate limit exceeded. Please try again later.")) ∧
    (agentProcess (fun _ _ _ => .authenticationError "boom") jsonLoadsTriv
        [createGoalTool] plainRequest
      = AgentResponseM.mk authenticationErrorText none ∧
    agentProcess (fun _ _ _ => .rateLimitError "boom") jsonLoadsTriv
        [createGoalTool] plainRequest
      = AgentResponseM.mk rateLimitErrorText none ∧
    agentProcess (fun _ _ _ => .apiError "maximum context length exceeded") jsonLoadsTriv
        [createGoalTool] plainRequest
      = AgentResponseM.mk
          (llmErrorLead ++ "Message history too long. Please start a new chat.") none ∧
    agentProcess (fun _ _ _ => .apiError "connection reset") jsonLoadsTriv
        [createGoalTool] plainRequest
      = AgentResponseM.mk (llmErrorLead ++ ("OpenAI API error: " ++ "connection reset")) none ∧
    agentProcess (fun _ _ _ => .unexpectedException "boom") jsonLoadsTriv
        [createGoalTool] plainRequest
      = AgentResponseM.mk (llmErrorLead ++ ("Unexpected LLM error: " ++ "boom")) none ∧
    agentProcess (twoPhaseProvider scenarioBFirstMessage (.rateLimitError "slow down"))
        jsonLoadsTriv [createGoalTool] plainRequest
      = AgentResponseM.mk
          (handleProcessError (.llmErr
            (.rateLimit "OpenAI rate limit exceeded. Please try again later."))) none ∧
    handleProcessError (.pyExc "boom") = unexpectedErrorText ∧
    (authenticationErrorText ≠ rateLimitErrorText ∧
      authenticationErrorText
        ≠ llmErrorLead ++ "Message history too long. Please start a new chat." ∧
      authenticationErrorText ≠ unexpectedErrorText ∧
      rateLimitErrorText
        ≠ llmErrorLead ++ "Message history too long. Please start a new chat." ∧
      rateLimitErrorText ≠ unexpectedErrorText ∧
      llmErrorLead ++ "Message history too long. Please start a new chat."
        ≠ unexpectedErrorText)) := by
  refine ⟨⟨by simp, by decide, by decide, by decide, rfl⟩, ?_⟩
  exact C4_amended_error_category_texts jsonLoadsTriv [createGoalTool] plainRequest
    "boom" "maximum context length exceeded" "connection reset" scenarioBFirstMessage
    (.rateLimitError "slow down")
    (.rateLimit "OpenAI rate limit exceeded. Please try again later.")
    (by simp) (by decide) (by decide) (by decide) rfl
